import Mathlib

/-!
Shallow embedding of `src/api/index.py` (IITM assignment helper).

The module is a small Flask app: a POST route `process_question` extracts a
question string and an optional uploaded file, saves the upload to a temporary
file, and forwards both to the dispatcher `process_assignment_question`, which
selects one of five handlers (CSV, PDF, YouTube, webpage, general LLM lookup)
by regular-expression sniffing of the question text.

Modelling conventions:
- Python exceptions are `PyErr` values; a piece of Python code that may raise
  is embedded as a function into `Except PyErr`.  A handler whose body is
  wrapped in `try/except` returning a string in every branch is embedded with
  every branch producing `.ok`.
- External services (pandas `read_csv`, `zipfile` extraction plus `os.walk`,
  `requests.get` plus BeautifulSoup `get_text`, pytube metadata, the OpenAI
  chat call, and the names chosen by `tempfile`) are oracles in an `Env`
  record, since the program treats them as opaque collaborators.
- Regexes are translated literally into character-list scanners: the
  case-insensitive searches lower the question first; the case-sensitive
  `re.findall` extractions keep the original text.
- DataFrame cells are modelled as their `str(...)` rendering, so Python `str`
  on a cell is the identity.
- Temporary-file bookkeeping is threaded explicitly: the CSV handler returns
  the list of directories created by `tempfile.mkdtemp()`, and the HTTP layer
  records which temporary files and directories were created and removed.
-/

namespace Api

/-- Python exception value, identified by its message `str(e)`. -/
structure PyErr where
  msg : String
deriving DecidableEq, Repr

/-- Result of running a piece of Python code: a value, or a raised exception. -/
abbrev PyResult (α : Type) : Type := Except PyErr α

/-- Boolean test that a result did not raise. -/
def isOkRes {α : Type} : PyResult α → Bool
  | .ok _ => true
  | .error _ => false

/-- Equality of embedded Python results is decidable. -/
instance {ε α : Type} [DecidableEq ε] [DecidableEq α] :
    DecidableEq (Except ε α) := fun x y =>
  match x, y with
  | .ok a, .ok b =>
    if h : a = b then .isTrue (by rw [h])
    else .isFalse (fun hc => h (Except.ok.inj hc))
  | .error a, .error b =>
    if h : a = b then .isTrue (by rw [h])
    else .isFalse (fun hc => h (Except.error.inj hc))
  | .ok _, .error _ => .isFalse (fun hc => Except.noConfusion hc)
  | .error _, .ok _ => .isFalse (fun hc => Except.noConfusion hc)

/-- Python truthiness of an optional string: `None` and the empty string are
falsy, every other string is truthy. -/
def strOptTruthy : Option String → Bool
  | none => false
  | some s => !(s == "")

/-- Lowercase a character list; models `str.lower()` and `re.IGNORECASE`
(ASCII, which covers every pattern used by the program). -/
def pyLowerL (l : List Char) : List Char := l.map Char.toLower

/-- The first list is a leading prefix of the second. -/
def isPrefixL : List Char → List Char → Bool
  | [], _ => true
  | _ :: _, [] => false
  | a :: as, b :: bs => a == b && isPrefixL as bs

/-- Drop the literal pattern from the front of the input, if it is there. -/
def stripPfx : List Char → List Char → Option (List Char)
  | [], s => some s
  | _ :: _, [] => none
  | a :: as, b :: bs => if a == b then stripPfx as bs else none

/-- The needle occurs somewhere inside the hay; models Python `in` on strings. -/
def containsSub : List Char → List Char → Bool
  | [], needle => isPrefixL needle []
  | c :: rest, needle => isPrefixL needle (c :: rest) || containsSub rest needle

/-- The first list is a trailing suffix of the second. -/
def isSuffixL (t s : List Char) : Bool := isPrefixL t.reverse s.reverse

/-- Models Python `str.endswith`. -/
def pyEndsWith (s tail : String) : Bool := isSuffixL tail.toList s.toList

/-- Regex word character `\w` (ASCII model: letters, digits, underscore). -/
def isWordChar (c : Char) : Bool := c.isAlphanum || c == '_'

/-- At the head of the input: the literal pattern, followed by a word
boundary (end of input, or a non-word character). -/
def extHere (pat s : List Char) : Bool :=
  match stripPfx pat s with
  | none => false
  | some [] => true
  | some (c :: _) => !isWordChar c

/-- Scan for the pattern-plus-boundary anywhere in the input. -/
def scanExt (pat : List Char) : List Char → Bool
  | [] => extHere pat []
  | c :: rest => extHere pat (c :: rest) || scanExt pat rest

/-- Models `re.search(r'\.EXT\b', question, re.IGNORECASE)` where `EXT` is
given in lowercase ("zip", "csv" or "pdf" in the dispatcher). -/
def searchDotExt (ext : String) (question : String) : Bool :=
  scanExt ('.' :: ext.toList) (pyLowerL question.toList)

/-- Models `re.search(r'youtube\.com|youtu\.be', question, re.IGNORECASE)`. -/
def mentionsYoutube (question : String) : Bool :=
  containsSub (pyLowerL question.toList) "youtube.com".toList ||
  containsSub (pyLowerL question.toList) "youtu.be".toList

/-- The input starts with at least one non-whitespace character (`\S`). -/
def headNonSpace : List Char → Bool
  | [] => false
  | c :: _ => !c.isWhitespace

/-- At the head of the (already lowered) input: a match of `https?://\S+`. -/
def urlHere (s : List Char) : Bool :=
  match stripPfx "http".toList s with
  | none => false
  | some rest =>
    match stripPfx "s://".toList rest with
    | some r2 => headNonSpace r2
    | none =>
      match stripPfx "://".toList rest with
      | some r2 => headNonSpace r2
      | none => false

/-- Scan the (already lowered) input for a `https?://\S+` match. -/
def scanUrl : List Char → Bool
  | [] => false
  | c :: rest => urlHere (c :: rest) || scanUrl rest

/-- Models `re.search(r'https?://\S+', question, re.IGNORECASE)`, the
dispatcher's generic-URL test. -/
def searchHttpUrl (question : String) : Bool := scanUrl (pyLowerL question.toList)

/-- At the head of the input: the exact substring matched by `https?://\S+`
(case-sensitive, greedy `\S+`). -/
def urlMatchHere (s : List Char) : Option (List Char) :=
  match stripPfx "http".toList s with
  | none => none
  | some rest =>
    match stripPfx "s://".toList rest with
    | some r2 =>
      match r2.takeWhile (fun c => !c.isWhitespace) with
      | [] => none
      | run => some ("https://".toList ++ run)
    | none =>
      match stripPfx "://".toList rest with
      | some r2 =>
        match r2.takeWhile (fun c => !c.isWhitespace) with
        | [] => none
        | run => some ("http://".toList ++ run)
      | none => none

/-- Leftmost `https?://\S+` match in the input. -/
def findUrlL : List Char → Option (List Char)
  | [] => none
  | c :: rest =>
    match urlMatchHere (c :: rest) with
    | some m => some m
    | none => findUrlL rest

/-- Models `re.findall(r'(https?://\S+)', question)` keeping only the first
match, which is all `process_webpage_question` uses.  Note: no `re.IGNORECASE`
here, faithful to the source. -/
def findUrl (question : String) : Option String :=
  (findUrlL question.toList).map String.mk

/-- At the head of the input: the full (group 1) match of
`https?://(www\.)?(youtube\.com/watch\?v=|youtu\.be/)[\w-]+` (case-sensitive). -/
def ytMatchHere (s : List Char) : Option (List Char) :=
  match stripPfx "http".toList s with
  | none => none
  | some r1 =>
    let sr : List Char × List Char :=
      match stripPfx "s".toList r1 with
      | some r => ("s".toList, r)
      | none => ([], r1)
    match stripPfx "://".toList sr.2 with
    | none => none
    | some r3 =>
      let wr : List Char × List Char :=
        match stripPfx "www.".toList r3 with
        | some r => ("www.".toList, r)
        | none => ([], r3)
      match stripPfx "youtube.com/watch?v=".toList wr.2 with
      | some r5 =>
        match r5.takeWhile (fun c => isWordChar c || c == '-') with
        | [] => none
        | run =>
          some ("http".toList ++ sr.1 ++ "://".toList ++ wr.1 ++
            "youtube.com/watch?v=".toList ++ run)
      | none =>
        match stripPfx "youtu.be/".toList wr.2 with
        | some r5 =>
          match r5.takeWhile (fun c => isWordChar c || c == '-') with
          | [] => none
          | run =>
            some ("http".toList ++ sr.1 ++ "://".toList ++ wr.1 ++
              "youtu.be/".toList ++ run)
        | none => none

/-- Leftmost YouTube-URL match in the input. -/
def findYtL : List Char → Option (List Char)
  | [] => none
  | c :: rest =>
    match ytMatchHere (c :: rest) with
    | some m => some m
    | none => findYtL rest

/-- Models `re.findall(r'(https?://(www\.)?(youtube\.com/watch\?v=|youtu\.be/)[\w-]+)',
question)` keeping group 1 of the first match (`youtube_urls[0][0]`). -/
def findYt (question : String) : Option String :=
  (findYtL question.toList).map String.mk

/-- pandas DataFrame: a header row of column labels plus data rows whose cells
are modelled as their `str(...)` rendering. -/
structure DataFrame where
  columns : List String
  rows : List (List String)
deriving DecidableEq, Repr

/-- Position of a column label among the columns (pandas column lookup). -/
def colIndex : List String → String → Option Nat
  | [], _ => none
  | c :: rest, name => if c == name then some 0 else (colIndex rest name).map (· + 1)

/-- Models `str(df[col].iloc[0])`: the first row's cell in the named column.
On a frame with no rows, `.iloc[0]` raises `IndexError`, which is modelled as
the `.error` branches. -/
def DataFrame.firstCell (df : DataFrame) (col : String) : PyResult String :=
  match colIndex df.columns col with
  | none => .error ⟨"KeyError"⟩
  | some i =>
    match df.rows with
    | [] => .error ⟨"single positional indexer is out-of-bounds"⟩
    | r :: _ =>
      match r[i]? with
      | some v => .ok v
      | none => .error ⟨"single positional indexer is out-of-bounds"⟩

/-- Models `df.head(10).to_string()`: a plain-text rendering of the header and
the first 10 rows (used only to enrich the LLM prompt). -/
def DataFrame.headText (df : DataFrame) : String :=
  String.intercalate "\n"
    (String.intercalate "  " df.columns :: (df.rows.take 10).map (String.intercalate "  "))

/-- Models `str.strip()`: remove leading and trailing whitespace. -/
def pyStrip (s : String) : String :=
  String.mk (((s.toList.dropWhile Char.isWhitespace).reverse.dropWhile
    Char.isWhitespace).reverse)

/-- Character set used by Python `tempfile` for the random part of generated
names: lowercase letters, digits and underscore — in particular no dot. -/
def tmpAlphabet : List Char := "abcdefghijklmnopqrstuvwxyz0123456789_".toList

/-- The external world as the program sees it: the configured credential, the
third-party services, and the names `tempfile` will hand out, all treated as
opaque oracles. -/
structure Env where
  /-- `os.environ.get("OPENAI_API_KEY")`. -/
  apiKey : Option String
  /-- The OpenAI chat-completions call on the user content (with the fixed
  system message and token cap): the returned message content, or a raised
  exception; client-construction failures are folded into the error case. -/
  openaiChat : String → PyResult String
  /-- `requests.get(url)` followed by `BeautifulSoup(...).get_text()`:
  the page text, or a raised fetch/parse exception. -/
  fetchText : String → PyResult String
  /-- pytube `YouTube(url)` metadata: `(title, description)`, or a raised
  exception. -/
  ytFetch : String → PyResult (String × String)
  /-- `zipfile.is_zipfile(path)`: signature check. -/
  isZipfile : String → Bool
  /-- `zipfile.ZipFile(path).extractall(dir)` followed by the recursive
  `os.walk` scan: the extracted files (paths relative to the scratch
  directory, in walk order), or a raised extraction exception. -/
  zipEntries : String → PyResult (List String)
  /-- `pd.read_csv(path)`: the loaded frame, or a raised parse exception. -/
  readCsv : String → PyResult DataFrame
  /-- The directory name `tempfile.mkdtemp()` returns for this request. -/
  tmpDirName : String
  /-- The random characters `tempfile.NamedTemporaryFile` appends to the
  `tmp` prefix for this request, drawn from `tmpAlphabet`. -/
  tmpSuffix : List (Fin tmpAlphabet.length)

/-- The path of the `tempfile.NamedTemporaryFile(delete=False)` the POST route
saves the upload to: `/tmp/tmp` plus random characters from `tmpAlphabet`.
The name contains no dot, hence no filename extension. -/
def tempFileName (env : Env) : String :=
  String.mk ("/tmp/tmp".toList ++ env.tmpSuffix.map (fun i => tmpAlphabet.get i))

/-- `process_general_question` (src/api/index.py lines 195-222): the whole body
is wrapped in `try/except` and every branch returns a string, so the function
is total; the OpenAI call is the `openaiChat` oracle. -/
def process_general_question (env : Env) (question : String) : PyResult String :=
  if !strOptTruthy env.apiKey then
    .ok "API key not configured. Please set the OPENAI_API_KEY environment variable."
  else
    match env.openaiChat question with
    | .ok content => .ok (pyStrip content)
    | .error e => .ok ("Error using OpenAI API: " ++ e.msg)

/-- `process_pdf_question` (lines 144-148): an intentional stub that reads no
file and returns a fixed message. -/
def process_pdf_question (question : String) (file_path : String) : String :=
  "PDF processing requires additional libraries. Please extract the relevant information from the PDF and include it in your question."

/-- `process_youtube_question` (lines 150-171): extract the first YouTube URL;
the pytube fetch sits inside `try/except`, so its failure becomes a text
answer; on success the enriched question goes to the general handler. -/
def process_youtube_question (env : Env) (question : String) : PyResult String :=
  match findYt question with
  | none => .ok "No YouTube URL found in the question."
  | some youtube_url =>
    match env.ytFetch youtube_url with
    | .error e => .ok ("Error processing YouTube video: " ++ e.msg)
    | .ok (video_title, video_description) =>
      process_general_question env
        (question ++ "\n\nVideo information:\nTitle: " ++ video_title ++
          "\nDescription: " ++ video_description)

/-- `process_webpage_question` (lines 173-193): extract the first
`https?://\S+` URL (case-sensitive `re.findall`); the fetch and parse sit
inside `try/except`, so their failure becomes a text answer; on success the
page text is truncated to 5000 characters and the enriched question goes to
the general handler. -/
def process_webpage_question (env : Env) (question : String) : PyResult String :=
  match findUrl question with
  | none => .ok "No URL found in the question."
  | some url =>
    match env.fetchText url with
    | .error e => .ok ("Error processing webpage: " ++ e.msg)
    | .ok text =>
      process_general_question env
        (question ++ "\n\nWebpage content (excerpt):\n" ++
          String.mk (text.toList.take 5000))

/-- `process_csv_question` (lines 89-142).  The function has no `try/except`,
so ZIP-extraction, CSV-parse and `.iloc[0]` failures raise out of it: those
are the `.error` results.  The second component is the list of scratch
directories created by `tempfile.mkdtemp()`; the source never removes them. -/
def process_csv_question (env : Env) (question : String) (file_path : String) :
    PyResult String × List String :=
  if pyEndsWith file_path ".zip" || env.isZipfile file_path then
    let temp_dir := env.tmpDirName
    match env.zipEntries file_path with
    | .error e => (.error e, [temp_dir])
    | .ok entries =>
      let csv_files := (entries.filter (fun f => pyEndsWith f ".csv")).map
        (fun f => temp_dir ++ "/" ++ f)
      match csv_files with
      | [] => (.ok "No CSV files found in the ZIP archive.", [temp_dir])
      | csv_file_path :: _ =>
        match env.readCsv csv_file_path with
        | .error e => (.error e, [temp_dir])
        | .ok df =>
          if containsSub (pyLowerL question.toList) "answer column".toList then
            if df.columns.contains "answer" then
              (df.firstCell "answer", [temp_dir])
            else
              (.ok "No 'answer' column found in the CSV.", [temp_dir])
          else
            (process_general_question env
              (question ++ "\n\nCSV content (first 10 rows):\n" ++ df.headText),
              [temp_dir])
  else if pyEndsWith file_path ".csv" then
    match env.readCsv file_path with
    | .error e => (.error e, [])
    | .ok df =>
      if containsSub (pyLowerL question.toList) "answer column".toList then
        if df.columns.contains "answer" then
          (df.firstCell "answer", [])
        else
          (.ok "No 'answer' column found in the CSV.", [])
      else
        (process_general_question env
          (question ++ "\n\nCSV content (first 10 rows):\n" ++ df.headText), [])
  else
    (.ok "Unsupported file format.", [])

/-- `process_assignment_question` (lines 58-87): the dispatcher.  First match
wins over the ordered regex tests; `if file_path` is Python truthiness. -/
def process_assignment_question (env : Env) (question : String)
    (file_path : Option String) : PyResult String × List String :=
  if strOptTruthy file_path &&
      (searchDotExt "zip" question || searchDotExt "csv" question) then
    process_csv_question env question (file_path.getD "")
  else if strOptTruthy file_path && searchDotExt "pdf" question then
    (.ok (process_pdf_question question (file_path.getD "")), [])
  else if mentionsYoutube question then
    (process_youtube_question env question, [])
  else if searchHttpUrl question then
    (process_webpage_question env question, [])
  else
    (process_general_question env question, [])

/-- Names for the five handlers, for stating which one the dispatcher picks. -/
inductive Handler
  | csv
  | pdf
  | youtube
  | webpage
  | general
deriving DecidableEq, Repr

/-- The handler selected by the dispatcher's if/elif chain, with exactly the
conditions of `process_assignment_question`. -/
def dispatch (question : String) (file_path : Option String) : Handler :=
  if strOptTruthy file_path &&
      (searchDotExt "zip" question || searchDotExt "csv" question) then
    .csv
  else if strOptTruthy file_path && searchDotExt "pdf" question then
    .pdf
  else if mentionsYoutube question then
    .youtube
  else if searchHttpUrl question then
    .webpage
  else
    .general

/-- The call the dispatcher makes for each handler choice. -/
def invokeHandler (env : Env) (question : String) (file_path : Option String) :
    Handler → PyResult String × List String
  | .csv => process_csv_question env question (file_path.getD "")
  | .pdf => (.ok (process_pdf_question question (file_path.getD "")), [])
  | .youtube => (process_youtube_question env question, [])
  | .webpage => (process_webpage_question env question, [])
  | .general => (process_general_question env question, [])

/-- An uploaded file as Flask presents it (only its filename matters to the
route's control flow; the bytes live behind the `Env` oracles). -/
structure UploadedFile where
  filename : String
deriving DecidableEq, Repr

/-- A POST / request: the `question` form field (absent or present) and the
optional `file` upload. -/
structure HttpReq where
  question : Option String
  file : Option UploadedFile
deriving DecidableEq, Repr

/-- JSON body of a response: `{"answer": ...}` or `{"error": ...}`. -/
inductive RespBody
  | answer (text : String)
  | error (text : String)
deriving DecidableEq, Repr

/-- An HTTP response: status code and JSON body. -/
structure HttpResp where
  status : Nat
  body : RespBody
deriving DecidableEq, Repr

/-- Outcome of one POST / request, with the temporary-resource bookkeeping
made explicit: which temp files/directories were created and removed. -/
structure RouteResult where
  resp : HttpResp
  createdFiles : List String
  createdDirs : List String
  removedFiles : List String
  removedDirs : List String
deriving DecidableEq, Repr

/-- `process_question` (lines 27-56), the POST / route.  `request.form.get`
defaults a missing question to `""`; an empty question short-circuits to 400.
A non-empty upload is saved to `tempFileName env`.  On a normal return the
route deletes the temp file (`os.path.exists` holds, as nothing removed it);
if the dispatcher raises, the `except` block returns 500 and the deletion is
skipped.  No code path ever removes a scratch directory. -/
def process_question (env : Env) (req : HttpReq) : RouteResult :=
  let question := req.question.getD ""
  if question == "" then
    ⟨⟨400, .error "No question provided"⟩, [], [], [], []⟩
  else
    let attached_file : Option String :=
      match req.file with
      | none => none
      | some f => if f.filename == "" then none else some (tempFileName env)
    let createdFiles : List String :=
      match attached_file with
      | none => []
      | some p => [p]
    match process_assignment_question env question attached_file with
    | (.ok answer, dirs) =>
      let removedFiles : List String :=
        match attached_file with
        | none => []
        | some p => if p == "" then [] else [p]
      ⟨⟨200, .answer answer⟩, createdFiles, dirs, removedFiles, []⟩
    | (.error e, dirs) =>
      ⟨⟨500, .error e.msg⟩, createdFiles, dirs, [], []⟩

/-! ### Concrete environments used by witnesses and counterexamples -/

/-- Baseline world: no API key, unreachable web, no pytube, an attached file
that is not a ZIP, an empty archive, an empty frame. -/
def env0 : Env where
  apiKey := none
  openaiChat := fun _ => .ok ""
  fetchText := fun _ => .error ⟨"boom"⟩
  ytFetch := fun _ => .error ⟨"yt down"⟩
  isZipfile := fun _ => false
  zipEntries := fun _ => .ok []
  readCsv := fun _ => .ok ⟨[], []⟩
  tmpDirName := "/tmp/tmpd0"
  tmpSuffix := []

/-- World with a configured key whose LLM always answers "G". -/
def envG : Env where
  apiKey := some "k"
  openaiChat := fun _ => .ok "G"
  fetchText := fun _ => .ok ""
  ytFetch := fun _ => .ok ("", "")
  isZipfile := fun _ => false
  zipEntries := fun _ => .ok []
  readCsv := fun _ => .ok ⟨[], []⟩
  tmpDirName := "/tmp/tmpd0"
  tmpSuffix := []

/-- World where the attached file is a ZIP containing one CSV that pandas
fails to parse (as happens for an empty CSV member). -/
def envC1 : Env where
  apiKey := none
  openaiChat := fun _ => .ok ""
  fetchText := fun _ => .ok ""
  ytFetch := fun _ => .ok ("", "")
  isZipfile := fun _ => true
  zipEntries := fun _ => .ok ["data.csv"]
  readCsv := fun _ => .error ⟨"No columns to parse from file"⟩
  tmpDirName := "/tmp/tmpd1"
  tmpSuffix := []

/-- Frame with an "answer" column whose first row holds "42". -/
def dfAnswer : DataFrame := ⟨["answer"], [["42"]]⟩

/-- World where the attached file is a ZIP containing one CSV that loads to
`dfAnswer`. -/
def envC9 : Env where
  apiKey := none
  openaiChat := fun _ => .ok ""
  fetchText := fun _ => .ok ""
  ytFetch := fun _ => .ok ("", "")
  isZipfile := fun _ => true
  zipEntries := fun _ => .ok ["data.csv"]
  readCsv := fun _ => .ok dfAnswer
  tmpDirName := "/tmp/tmpd1"
  tmpSuffix := []

/-- World where the attached ZIP holds one CSV with an "answer" header but no
data rows. -/
def envC4 : Env where
  apiKey := none
  openaiChat := fun _ => .ok ""
  fetchText := fun _ => .ok ""
  ytFetch := fun _ => .ok ("", "")
  isZipfile := fun _ => true
  zipEntries := fun _ => .ok ["data.csv"]
  readCsv := fun _ => .ok ⟨["answer"], []⟩
  tmpDirName := "/tmp/tmpd1"
  tmpSuffix := []

/-! ### Helper lemmas -/

/-- Every character of a prefix occurs in the longer list. -/
theorem isPrefixL_mem {a b : List Char} (h : isPrefixL a b = true) :
    ∀ c ∈ a, c ∈ b := by
  induction a generalizing b with
  | nil => intro c hc; cases hc
  | cons x xs ih =>
    cases b with
    | nil => simp [isPrefixL] at h
    | cons y ys =>
      rw [isPrefixL, Bool.and_eq_true] at h
      intro c hc
      rcases List.mem_cons.mp hc with rfl | hc2
      · exact List.mem_cons.mpr (Or.inl (beq_iff_eq.mp h.1))
      · exact List.mem_cons.mpr (Or.inr (ih h.2 c hc2))

/-- Every character of a matched suffix occurs in the string. -/
theorem pyEndsWith_mem {s t : String} (h : pyEndsWith s t = true) :
    ∀ c ∈ t.toList, c ∈ s.toList := by
  unfold pyEndsWith isSuffixL at h
  intro c hc
  have h2 := isPrefixL_mem h c (List.mem_reverse.mpr hc)
  exact List.mem_reverse.mp h2

/-- The temp-file name the route saves uploads to contains no dot. -/
theorem tempFileName_no_dot (env : Env) :
    ∀ c ∈ (tempFileName env).toList, c ≠ '.' := by
  intro c hc
  have hc2 : c ∈ "/tmp/tmp".toList ++
      env.tmpSuffix.map (fun i => tmpAlphabet.get i) := hc
  rcases List.mem_append.mp hc2 with h | h
  · intro hdot; subst hdot; revert h; decide
  · rcases List.mem_map.mp h with ⟨i, _, hi⟩
    have hmem : tmpAlphabet.get i ∈ tmpAlphabet := List.get_mem tmpAlphabet i.1 i.2
    rw [hi] at hmem
    intro hdot; subst hdot; revert hmem; decide

/-- The temp-file name does not end in ".zip". -/
theorem tempFileName_not_zip (env : Env) :
    pyEndsWith (tempFileName env) ".zip" = false := by
  by_contra hcon
  have h : pyEndsWith (tempFileName env) ".zip" = true := by
    revert hcon; cases pyEndsWith (tempFileName env) ".zip" <;> simp
  have hmem := pyEndsWith_mem h '.' (by decide)
  exact tempFileName_no_dot env '.' hmem rfl

/-- The temp-file name does not end in ".csv". -/
theorem tempFileName_not_csv (env : Env) :
    pyEndsWith (tempFileName env) ".csv" = false := by
  by_contra hcon
  have h : pyEndsWith (tempFileName env) ".csv" = true := by
    revert hcon; cases pyEndsWith (tempFileName env) ".csv" <;> simp
  have hmem := pyEndsWith_mem h '.' (by decide)
  exact tempFileName_no_dot env '.' hmem rfl

/-- The temp-file name is a nonempty (hence truthy) string. -/
theorem tempFileName_truthy (env : Env) : (tempFileName env == "") = false := by
  rw [beq_eq_false_iff_ne]
  intro h
  have h2 : "/tmp/tmp".toList ++
      env.tmpSuffix.map (fun i => tmpAlphabet.get i) = ([] : List Char) :=
    congrArg String.toList h
  have h3 := List.append_eq_nil.mp h2
  exact absurd h3.1 (by decide)

/-- The general handler catches every failure: it never raises. -/
theorem general_never_raises (env : Env) (q : String) :
    isOkRes (process_general_question env q) = true := by
  unfold process_general_question
  split
  · rfl
  · split <;> rfl

/-- The YouTube handler catches every failure: it never raises. -/
theorem youtube_never_raises (env : Env) (q : String) :
    isOkRes (process_youtube_question env q) = true := by
  unfold process_youtube_question
  split
  · rfl
  · split
    · rfl
    · exact general_never_raises env _

/-- The webpage handler catches every failure: it never raises. -/
theorem webpage_never_raises (env : Env) (q : String) :
    isOkRes (process_webpage_question env q) = true := by
  unfold process_webpage_question
  split
  · rfl
  · split
    · rfl
    · exact general_never_raises env _

/-! ### Claim theorems -/

/-- Claim C5: for every attached ZIP archive (by extension or signature) whose
extracted contents contain no file ending in ".csv" in the recursive scan, the
CSV handler returns exactly "No CSV files found in the ZIP archive.". -/
theorem claim_C5_zip_without_csv (env : Env) (q fp : String)
    (entries : List String)
    (hzip : (pyEndsWith fp ".zip" || env.isZipfile fp) = true)
    (hext : env.zipEntries fp = .ok entries)
    (hnone : entries.filter (fun f => pyEndsWith f ".csv") = []) :
    (process_csv_question env q fp).1 =
      .ok "No CSV files found in the ZIP archive." := by
  unfold process_csv_question
  simp [hzip, hext, hnone]

/-- Witness for C5: a file named "a.zip" whose archive extracts to nothing. -/
theorem claim_C5_witness :
    (process_csv_question env0 "extract the .zip" "a.zip").1 =
      .ok "No CSV files found in the ZIP archive." :=
  claim_C5_zip_without_csv env0 "extract the .zip" "a.zip" [] (by decide) rfl rfl

/-- Claim C6: whenever the OPENAI_API_KEY credential is not configured (the
environment value is falsy: absent or empty), every call to the general
handler returns exactly the fixed "API key not configured" message, whatever
the question. -/
theorem claim_C6_missing_api_key (env : Env) (q : String)
    (h : strOptTruthy env.apiKey = false) :
    process_general_question env q =
      .ok "API key not configured. Please set the OPENAI_API_KEY environment variable." := by
  unfold process_general_question
  simp [h]

/-- Witness for C6: the keyless world `env0`. -/
theorem claim_C6_witness :
    process_general_question env0 "what is 2+2" =
      .ok "API key not configured. Please set the OPENAI_API_KEY environment variable." :=
  claim_C6_missing_api_key env0 "what is 2+2" rfl

/-- Claim C7: the webpage handler never raises, and whenever the fetch/parse
of the first extracted URL fails, it returns the string
"Error processing webpage: " followed by the failure message. -/
theorem claim_C7_webpage_error_text :
    (∀ (env : Env) (q : String), isOkRes (process_webpage_question env q) = true) ∧
    (∀ (env : Env) (q url : String) (e : PyErr),
      findUrl q = some url → env.fetchText url = .error e →
      process_webpage_question env q =
        .ok ("Error processing webpage: " ++ e.msg)) := by
  constructor
  · exact webpage_never_raises
  · intro env q url e hf herr
    unfold process_webpage_question
    simp [hf, herr]

/-- Witness for C7: in `env0` every fetch fails with "boom". -/
theorem claim_C7_witness :
    process_webpage_question env0 "see http://x" =
      .ok ("Error processing webpage: " ++ "boom") :=
  claim_C7_webpage_error_text.2 env0 "see http://x" "http://x" ⟨"boom"⟩
    (by decide) rfl

/-- Claim C8: a POST / request whose question form field is missing or empty
yields HTTP 400 with body error "No question provided"; the result is a fixed
constant for every environment, so no handler runs and no temporary resource
is touched. -/
theorem claim_C8_empty_question (env : Env) (req : HttpReq)
    (h : req.question = none ∨ req.question = some "") :
    process_question env req =
      ⟨⟨400, .error "No question provided"⟩, [], [], [], []⟩ := by
  unfold process_question
  rcases h with h | h <;> simp [h]

/-- Witness for C8: an empty question field. -/
theorem claim_C8_witness :
    process_question env0 ⟨some "", none⟩ =
      ⟨⟨400, .error "No question provided"⟩, [], [], [], []⟩ :=
  claim_C8_empty_question env0 ⟨some "", none⟩ (Or.inr rfl)

/-- Claim C1 (counterexample): the CSV handler has no exception handling, so
the dispatcher can raise.  Here the question mentions ".csv", a file is
attached, the attachment is a ZIP holding one CSV, and pandas fails to parse
it; the dispatcher result is a raised exception, not an answer string. -/
theorem claim_C1_counterexample :
    isOkRes (process_assignment_question envC1 "see data.csv"
        (some "/tmp/tmpabc")).1 = false ∧
    (process_assignment_question envC1 "see data.csv" (some "/tmp/tmpabc")).1 =
      .error ⟨"No columns to parse from file"⟩ := by decide

/-- Claim C1 (amended): for every question and optional file, the dispatcher
either returns an answer string without raising, or it has routed to the CSV
handler — the only handler without its own try/except, out of which ZIP
extraction, CSV parsing and row-indexing failures propagate. -/
theorem claim_C1_amended (env : Env) (q : String) (fp : Option String) :
    isOkRes (process_assignment_question env q fp).1 = true ∨
    dispatch q fp = Handler.csv := by
  unfold process_assignment_question dispatch
  by_cases h1 : (strOptTruthy fp &&
      (searchDotExt "zip" q || searchDotExt "csv" q)) = true
  · right; simp [h1]
  · left
    by_cases h2 : (strOptTruthy fp && searchDotExt "pdf" q) = true
    · simp [h1, h2, isOkRes]
    · by_cases h3 : mentionsYoutube q = true
      · simp [h1, h2, h3]
        exact youtube_never_raises env q
      · by_cases h4 : searchHttpUrl q = true
        · simp [h1, h2, h3, h4]
          exact webpage_never_raises env q
        · simp [h1, h2, h3, h4]
          exact general_never_raises env q

/-- Claim C2: the dispatcher performs exactly the documented first-match
selection: its result is the invocation of the handler named by `dispatch`,
and `dispatch` obeys the five ordered rules; in particular a question with a
YouTube URL and another generic URL (and no file) goes to the YouTube
handler because that test precedes the generic-URL test. -/
theorem claim_C2_dispatch_order (env : Env) (q : String) (fp : Option String) :
    process_assignment_question env q fp = invokeHandler env q fp (dispatch q fp) ∧
    ((strOptTruthy fp && (searchDotExt "zip" q || searchDotExt "csv" q)) = true →
      dispatch q fp = Handler.csv) ∧
    ((strOptTruthy fp && (searchDotExt "zip" q || searchDotExt "csv" q)) = false →
      (strOptTruthy fp && searchDotExt "pdf" q) = true →
      dispatch q fp = Handler.pdf) ∧
    ((strOptTruthy fp && (searchDotExt "zip" q || searchDotExt "csv" q)) = false →
      (strOptTruthy fp && searchDotExt "pdf" q) = false →
      mentionsYoutube q = true →
      dispatch q fp = Handler.youtube) ∧
    ((strOptTruthy fp && (searchDotExt "zip" q || searchDotExt "csv" q)) = false →
      (strOptTruthy fp && searchDotExt "pdf" q) = false →
      mentionsYoutube q = false →
      searchHttpUrl q = true →
      dispatch q fp = Handler.webpage) ∧
    ((strOptTruthy fp && (searchDotExt "zip" q || searchDotExt "csv" q)) = false →
      (strOptTruthy fp && searchDotExt "pdf" q) = false →
      mentionsYoutube q = false →
      searchHttpUrl q = false →
      dispatch q fp = Handler.general) ∧
    (mentionsYoutube q = true → searchHttpUrl q = true →
      dispatch q none = Handler.youtube) := by
  refine ⟨?_, ?_, ?_, ?_, ?_, ?_, ?_⟩
  · by_cases h1 : (strOptTruthy fp &&
        (searchDotExt "zip" q || searchDotExt "csv" q)) = true
    · simp [process_assignment_question, dispatch, invokeHandler, h1]
    · by_cases h2 : (strOptTruthy fp && searchDotExt "pdf" q) = true
      · simp [process_assignment_question, dispatch, invokeHandler, h1, h2]
      · by_cases h3 : mentionsYoutube q = true
        · simp [process_assignment_question, dispatch, invokeHandler, h1, h2, h3]
        · by_cases h4 : searchHttpUrl q = true
          · simp [process_assignment_question, dispatch, invokeHandler,
              h1, h2, h3, h4]
          · simp [process_assignment_question, dispatch, invokeHandler,
              h1, h2, h3, h4]
  · intro h1; simp [dispatch, h1]
  · intro h1 h2; simp [dispatch, h1, h2]
  · intro h1 h2 h3; simp [dispatch, h1, h2, h3]
  · intro h1 h2 h3 h4; simp [dispatch, h1, h2, h3, h4]
  · intro h1 h2 h3 h4; simp [dispatch, h1, h2, h3, h4]
  · intro hy hu; simp [dispatch, strOptTruthy, hy]

/-- Witness for C2 (the highlighted edge case): a question carrying both a
YouTube URL and a second generic URL, no file attached, goes to the YouTube
handler. -/
theorem claim_C2_witness :
    dispatch "compare https://youtube.com/watch and http://other.example" none =
      Handler.youtube :=
  (claim_C2_dispatch_order env0
      "compare https://youtube.com/watch and http://other.example" none).2.2.2.2.2.2
    (by decide) (by decide)

/-- Claim C3 (counterexample): a non-empty question with no file and no
http(s) URL is NOT always routed to the general handler — a bare mention of
"youtube.com" goes to the YouTube handler, which answers "No YouTube URL
found in the question." while the general handler would answer "G". -/
theorem claim_C3_counterexample :
    ("tell me about youtube.com" ≠ "") ∧
    searchHttpUrl "tell me about youtube.com" = false ∧
    dispatch "tell me about youtube.com" none = Handler.youtube ∧
    process_assignment_question envG "tell me about youtube.com" none =
      (.ok "No YouTube URL found in the question.", []) ∧
    process_general_question envG "tell me about youtube.com" = .ok "G" := by
  decide

/-- Claim C3 (amended): for every non-empty question with no attached file,
containing no http(s) URL and also not mentioning youtube.com or youtu.be,
the dispatcher delegates to the general handler. -/
theorem claim_C3_amended (env : Env) (q : String) (hne : q ≠ "")
    (hyt : mentionsYoutube q = false) (hurl : searchHttpUrl q = false) :
    process_assignment_question env q none = (process_general_question env q, []) ∧
    dispatch q none = Handler.general := by
  constructor <;>
    simp [process_assignment_question, dispatch, strOptTruthy, hyt, hurl]

/-- Witness for C3 (amended): a plain question in the baseline world. -/
theorem claim_C3_witness :
    process_assignment_question env0 "hello" none =
      (process_general_question env0 "hello", []) ∧
    dispatch "hello" none = Handler.general :=
  claim_C3_amended env0 "hello" (by decide) (by decide) (by decide)

/-- Claim C4 (counterexample): a CSV that loads successfully, with the phrase
"answer column" in the question and a column literally named "answer", does
not always yield a returned value — on a frame with a header but no data rows
the `.iloc[0]` lookup raises, so the handler produces an exception rather
than an answer string. -/
theorem claim_C4_counterexample :
    containsSub (pyLowerL ("what is in the Answer Column?").toList)
      "answer column".toList = true ∧
    envC4.readCsv "/tmp/tmpd1/data.csv" = .ok ⟨["answer"], []⟩ ∧
    (DataFrame.mk ["answer"] []).columns.contains "answer" = true ∧
    (process_csv_question envC4 "what is in the Answer Column?" "/tmp/f").1 =
      .error ⟨"single positional indexer is out-of-bounds"⟩ := by decide

/-- Claim C4 (amended): for every CSV successfully loaded by the CSV handler
(through the ZIP path or the direct .csv path), if the question contains the
phrase "answer column" case-insensitively, then: when no column is literally
named "answer" the handler returns exactly "No 'answer' column found in the
CSV.", and when the "answer" column exists AND the frame has at least one
row, the handler returns that row's cell rendered as text.  (The row
hypothesis is forced by the counterexample: on a 0-row frame the lookup
raises.) -/
theorem claim_C4_amended :
    (∀ (env : Env) (q fp : String) (entries : List String) (name : String)
        (rest : List String) (df : DataFrame),
      containsSub (pyLowerL q.toList) "answer column".toList = true →
      (pyEndsWith fp ".zip" || env.isZipfile fp) = true →
      env.zipEntries fp = .ok entries →
      entries.filter (fun f => pyEndsWith f ".csv") = name :: rest →
      env.readCsv (env.tmpDirName ++ "/" ++ name) = .ok df →
      ((df.columns.contains "answer" = false →
          (process_csv_question env q fp).1 =
            .ok "No 'answer' column found in the CSV.") ∧
       (∀ (i : Nat) (r : List String) (rs : List (List String)) (v : String),
          df.columns.contains "answer" = true →
          colIndex df.columns "answer" = some i →
          df.rows = r :: rs →
          r[i]? = some v →
          (process_csv_question env q fp).1 = .ok v))) ∧
    (∀ (env : Env) (q fp : String) (df : DataFrame),
      containsSub (pyLowerL q.toList) "answer column".toList = true →
      (pyEndsWith fp ".zip" || env.isZipfile fp) = false →
      pyEndsWith fp ".csv" = true →
      env.readCsv fp = .ok df →
      ((df.columns.contains "answer" = false →
          (process_csv_question env q fp).1 =
            .ok "No 'answer' column found in the CSV.") ∧
       (∀ (i : Nat) (r : List String) (rs : List (List String)) (v : String),
          df.columns.contains "answer" = true →
          colIndex df.columns "answer" = some i →
          df.rows = r :: rs →
          r[i]? = some v →
          (process_csv_question env q fp).1 = .ok v))) := by
  constructor
  · intro env q fp entries name rest df hphrase hzip hext hfil hread
    constructor
    · intro hcol
      unfold process_csv_question
      simp at hphrase hcol
      simp [hzip, hext, hfil, hread, hphrase, hcol]
    · intro i r rs v hcol hidx hrows hv
      unfold process_csv_question
      simp at hphrase hcol
      simp [hzip, hext, hfil, hread, hphrase, hcol,
        DataFrame.firstCell, hidx, hrows, hv]
  · intro env q fp df hphrase hnzip hcsv hread
    constructor
    · intro hcol
      unfold process_csv_question
      simp at hphrase hcol
      simp [hnzip, hcsv, hread, hphrase, hcol]
    · intro i r rs v hcol hidx hrows hv
      unfold process_csv_question
      simp at hphrase hcol
      simp [hnzip, hcsv, hread, hphrase, hcol,
        DataFrame.firstCell, hidx, hrows, hv]

/-- Witness for C4 (amended): the ZIP path, a one-row frame with an "answer"
column holding "42". -/
theorem claim_C4_witness :
    (process_csv_question envC9 "report the answer column" "/tmp/f").1 =
      .ok "42" :=
  (claim_C4_amended.1 envC9 "report the answer column" "/tmp/f"
      ["data.csv"] "data.csv" [] dfAnswer
      (by decide) (by decide) rfl (by decide) rfl).2
    0 ["42"] [] "42" (by decide) (by decide) rfl (by decide)

/-- Claim C9 (counterexample): a request that completes successfully (HTTP
200) leaves behind the scratch directory created by the CSV handler's
`mkdtemp`: the source contains no code that removes scratch directories, so
not every temporary resource is removed by the end of the request. -/
theorem claim_C9_counterexample :
    (process_question envC9
        ⟨some "unzip data.zip and report the answer column",
         some ⟨"data.zip"⟩⟩).resp = ⟨200, .answer "42"⟩ ∧
    (process_question envC9
        ⟨some "unzip data.zip and report the answer column",
         some ⟨"data.zip"⟩⟩).createdDirs = ["/tmp/tmpd1"] ∧
    (process_question envC9
        ⟨some "unzip data.zip and report the answer column",
         some ⟨"data.zip"⟩⟩).removedDirs = [] := by decide

/-- Claim C9 (amended): scratch directories are never removed, and the
uploaded temporary file is removed exactly when handling does not raise:
on a non-500 response every created temporary file has been removed, and on
the 500 (handler exception) path the route's except block skips the cleanup,
so no file is removed at all. -/
theorem claim_C9_amended (env : Env) (req : HttpReq) :
    (process_question env req).removedDirs = [] ∧
    ((process_question env req).resp.status ≠ 500 →
      (process_question env req).removedFiles =
        (process_question env req).createdFiles) ∧
    ((process_question env req).resp.status = 500 →
      (process_question env req).removedFiles = []) := by
  unfold process_question
  by_cases hq : (req.question.getD "" == "") = true
  · simp [hq]
  · simp only [hq, if_false, Bool.false_eq_true]
    cases hf : req.file with
    | none =>
      cases hr : process_assignment_question env (req.question.getD "") none with
      | mk res dirs =>
        cases res with
        | ok a => simp [hr]
        | error e => simp [hr]
    | some f =>
      by_cases hn : (f.filename == "") = true
      · simp only [hn, if_true]
        cases hr : process_assignment_question env (req.question.getD "") none with
        | mk res dirs =>
          cases res with
          | ok a => simp [hr]
          | error e => simp [hr]
      · simp only [hn, if_false, Bool.false_eq_true]
        cases hr : process_assignment_question env (req.question.getD "")
            (some (tempFileName env)) with
        | mk res dirs =>
          cases res with
          | ok a => simp [hr, tempFileName_truthy env]
          | error e => simp [hr]

/-- Witness for C9 (amended): a plain successful request removes what it
created, and a request whose CSV parse raises (HTTP 500) removes nothing —
in particular the upload it saved leaks. -/
theorem claim_C9_witness :
    (process_question env0 ⟨some "hello", none⟩).removedFiles =
      (process_question env0 ⟨some "hello", none⟩).createdFiles ∧
    ((process_question envC1 ⟨some "see data.csv", some ⟨"data.csv"⟩⟩).createdFiles =
      [tempFileName envC1] ∧
     (process_question envC1 ⟨some "see data.csv", some ⟨"data.csv"⟩⟩).removedFiles =
      []) :=
  ⟨(claim_C9_amended env0 ⟨some "hello", none⟩).2.1 (by decide),
   by decide,
   (claim_C9_amended envC1 ⟨some "see data.csv", some ⟨"data.csv"⟩⟩).2.2
     (by decide)⟩

/-- Claim C10: the saved upload path `tempFileName env` has no extension (it
ends in neither ".zip" nor ".csv"), so a directly uploaded CSV — whose bytes
are not a ZIP, making the signature check false — that reaches the CSV
handler (question mentions ".csv", file attached) yields exactly
"Unsupported file format." instead of being loaded as a CSV. -/
theorem claim_C10_no_extension (env : Env) (q : String)
    (hsig : env.isZipfile (tempFileName env) = false)
    (hq : searchDotExt "csv" q = true) :
    pyEndsWith (tempFileName env) ".zip" = false ∧
    pyEndsWith (tempFileName env) ".csv" = false ∧
    process_assignment_question env q (some (tempFileName env)) =
      (.ok "Unsupported file format.", []) := by
  refine ⟨tempFileName_not_zip env, tempFileName_not_csv env, ?_⟩
  have ht : strOptTruthy (some (tempFileName env)) = true := by
    show (!(tempFileName env == "")) = true
    rw [tempFileName_truthy]
    rfl
  unfold process_assignment_question
  simp only [ht, hq, Bool.or_true, Bool.and_true, Bool.true_and, if_true]
  unfold process_csv_question
  simp [tempFileName_not_zip env, hsig, tempFileName_not_csv env]

/-- Witness for C10: the baseline world, where the signature check is false. -/
theorem claim_C10_witness :
    pyEndsWith (tempFileName env0) ".zip" = false ∧
    pyEndsWith (tempFileName env0) ".csv" = false ∧
    process_assignment_question env0 "open data.csv" (some (tempFileName env0)) =
      (.ok "Unsupported file format.", []) :=
  claim_C10_no_extension env0 "open data.csv" rfl (by decide)

end Api
